import Mathlib

/-!
Verification development for the irrigation-controller repository
(controller.py, actuators.py, sensors.py, decision_engine.py).

The Python code is shallowly embedded: sensor snapshots and decision
dictionaries become records, module-level mutable state becomes an explicit
`SysState` record threaded through the operations, rational numbers stand in
for Python floats (all compared constants are exact decimals), and the
hardware drivers are modelled by their observable effect (state transition
plus whether a GPIO call was issued).  The controller keeps a dict
`actuator_states` that mirrors each ActuatorBase internal `estado` on every
driver-success path (both start False and every such path writes the same
value to both), so on the no-failure fragment a single boolean per actuator
represents both; the driver-failure model for claim C5 keeps the two layers
separate.
-/

/-- Control mode as read from the Node-RED interface (controller.py line 68). -/
inductive Mode where
  | automatic
  | manual
deriving DecidableEq, Repr

/-- Season as returned by `_get_current_season` (controller.py lines 216-230). -/
inductive Season where
  | summer
  | autumn
  | winter
  | spring
  | unknown
deriving DecidableEq, Repr

/-- A min/max band, one entry of an UMBRALES table. -/
structure Banda where
  min : ℚ
  max : ℚ
deriving DecidableEq, Repr

/-- A full threshold table over the six monitored quantities. -/
structure Umbrales where
  humidity : Banda
  temperature : Banda
  ph : Banda
  ce : Banda
  water_level : Banda
  flow_rate : Banda
deriving DecidableEq, Repr

/-- A sensor snapshot as produced by `_leer_sensores` (controller.py lines
158-210); that function always populates all six numeric fields, so they are
total here.  The season is passed separately where needed. -/
structure Snapshot where
  humidity : ℚ
  temperature : ℚ
  ph : ℚ
  ce : ℚ
  water_level : ℚ
  flow_rate : ℚ
deriving DecidableEq, Repr

/-- A Python decision dictionary: each key may be absent (`none`).
`dict.get(key)` on a bool key is truthy exactly for `some true`;
`dict.get(key, 0)` is `Option.getD 0`. -/
structure DictDecision where
  activar_bomba : Option Bool
  abrir_valvula_riego : Option Bool
  inyectar_fertilizante : Option Bool
  abrir_valvula_suministro : Option Bool
  porcentaje_fertilizante : Option ℚ
  cantidad_agua : Option ℚ
deriving DecidableEq, Repr

/-- The empty decision dict `{}`. -/
def DictDecision.empty : DictDecision :=
  ⟨none, none, none, none, none, none⟩

/-- The mutable controller state that the claims touch: control mode, the
busy flag, the four actuator states, and the daily water budget
(controller.py lines 66-98). -/
structure SysState where
  control_mode : Mode
  is_busy : Bool
  bomba : Bool
  valvula_riego : Bool
  valvula_suministro : Bool
  valvula_fertilizante : Bool
  total_daily_water : ℚ
  remaining_daily_water : ℚ
  daily_fertilizer_percentage : ℚ
  num_events : ℕ
deriving DecidableEq, Repr

/-- One GPIO driver call, as issued by ActuatorBase when a state transition
actually happens. -/
inductive HwCall where
  | pumpOn
  | pumpOff
  | riegoOpen
  | riegoClose
  | fertOpen
  | fertClose
  | sumOpen
  | sumClose
deriving DecidableEq, Repr

/-- Threshold tables of `_verificar_umbrales` in controller.py (lines
744-790).  Note the controller flow band starts at 1.0. -/
def umbralesControlador : Season → Umbrales
  | Season.summer =>
      ⟨⟨20, 80⟩, ⟨15, 40⟩, ⟨5.5, 7.5⟩, ⟨1, 2.5⟩, ⟨20, 80⟩, ⟨1, 60⟩⟩
  | Season.autumn =>
      ⟨⟨25, 75⟩, ⟨10, 30⟩, ⟨5.5, 7.5⟩, ⟨1, 2.5⟩, ⟨20, 80⟩, ⟨1, 60⟩⟩
  | Season.winter =>
      ⟨⟨30, 70⟩, ⟨5, 25⟩, ⟨5.5, 7.5⟩, ⟨1, 2.5⟩, ⟨20, 80⟩, ⟨1, 60⟩⟩
  | Season.spring =>
      ⟨⟨25, 75⟩, ⟨10, 30⟩, ⟨5.5, 7.5⟩, ⟨1, 2.5⟩, ⟨20, 80⟩, ⟨1, 60⟩⟩
  | Season.unknown =>
      ⟨⟨20, 80⟩, ⟨10, 35⟩, ⟨5.5, 7.5⟩, ⟨1, 2.5⟩, ⟨20, 80⟩, ⟨1, 60⟩⟩

/-- Threshold tables of `_definir_umbrales_por_estacion` in decision_engine.py
(lines 238-291).  Identical to the controller tables except the flow band
starts at 0.0. -/
def umbralesEngine : Season → Umbrales
  | Season.summer =>
      ⟨⟨20, 80⟩, ⟨15, 40⟩, ⟨5.5, 7.5⟩, ⟨1, 2.5⟩, ⟨20, 80⟩, ⟨0, 60⟩⟩
  | Season.autumn =>
      ⟨⟨25, 75⟩, ⟨10, 30⟩, ⟨5.5, 7.5⟩, ⟨1, 2.5⟩, ⟨20, 80⟩, ⟨0, 60⟩⟩
  | Season.winter =>
      ⟨⟨30, 70⟩, ⟨5, 25⟩, ⟨5.5, 7.5⟩, ⟨1, 2.5⟩, ⟨20, 80⟩, ⟨0, 60⟩⟩
  | Season.spring =>
      ⟨⟨25, 75⟩, ⟨10, 30⟩, ⟨5.5, 7.5⟩, ⟨1, 2.5⟩, ⟨20, 80⟩, ⟨0, 60⟩⟩
  | Season.unknown =>
      ⟨⟨20, 80⟩, ⟨10, 35⟩, ⟨5.5, 7.5⟩, ⟨1, 2.5⟩, ⟨20, 80⟩, ⟨0, 60⟩⟩

/-- The per-sensor check `limits[min] <= value <= limits[max]`. -/
def enRango (b : Banda) (v : ℚ) : Bool :=
  decide (b.min ≤ v ∧ v ≤ b.max)

/-- Model of `_verificar_umbrales` (controller.py lines 792-801) and the identical
`verificar_umbrales` of the engine (decision_engine.py lines 149-164): true
when every reading is inside its band. -/
def verificarUmbrales (u : Umbrales) (sv : Snapshot) : Bool :=
  enRango u.humidity sv.humidity &&
  enRango u.temperature sv.temperature &&
  enRango u.ph sv.ph &&
  enRango u.ce sv.ce &&
  enRango u.water_level sv.water_level &&
  enRango u.flow_rate sv.flow_rate

/-- Model of `ActuatorBase.activar` (actuators.py lines 55-68): the internal state is
set to on; a GPIO call is issued only when the actuator was off (otherwise a
debug message is logged and no call happens).  Returns (new estado, whether a
hardware call was issued). -/
def ActuatorBase.activar (estado : Bool) : Bool × Bool :=
  (true, !estado)

/-- Model of `ActuatorBase.desactivar` (actuators.py lines 70-83): the internal state
is set to off; a GPIO call is issued only when the actuator was on. -/
def ActuatorBase.desactivar (estado : Bool) : Bool × Bool :=
  (false, estado)

/-- Model of `ActuatorBase.activar` with a fallible GPIO driver (actuators.py lines
55-68): when the actuator was off, `estado` is assigned True BEFORE the
GPIO.output call, so if the driver throws the exception propagates with
`estado` already holding the commanded value.  Returns
(new estado, exception raised). -/
def ActuatorBase.activarConFallo (estado : Bool) (driverFalla : Bool) : Bool × Bool :=
  if estado then (true, false) else (true, driverFalla)

/-- Model of `ActuatorBase.desactivar` with a fallible GPIO driver (actuators.py
lines 70-83), symmetric to `ActuatorBase.activarConFallo`. -/
def ActuatorBase.desactivarConFallo (estado : Bool) (driverFalla : Bool) : Bool × Bool :=
  if estado then (false, driverFalla) else (false, false)

/-- The pump block of `_accionar_actuadores` (controller.py lines 377-385)
with a fallible driver: the driver call happens first, and only if it did not
throw is the registry record `actuator_states[bomba]` updated; an exception
is re-raised by the surrounding handler (lines 419-421).  Input is the
commanded value, whether the driver fails, the registry record, and the
ActuatorBase internal `estado`.  Output is ((new record, new estado),
exception propagated). -/
def aplicarBombaConFallo (cmd driverFalla record estado : Bool) :
    (Bool × Bool) × Bool :=
  let r := if cmd then ActuatorBase.activarConFallo estado driverFalla
           else ActuatorBase.desactivarConFallo estado driverFalla
  if r.2 then ((record, r.1), true)
  else ((cmd, r.1), false)

/-- Model of `_ajustar_dosificacion_fertilizante` (controller.py lines 423-470): if
busy, return without doing anything; otherwise set busy, and when the opening
time `(porcentaje / 100) * max_fertilizer_time` is positive open and then
close the fertilizer valve; finally clear busy.  Returns the new state and
the GPIO calls issued. -/
def ajustarDosificacionFertilizante (porcentaje : ℚ) (s : SysState) :
    SysState × List HwCall :=
  if s.is_busy then (s, [])
  else
    let s1 := { s with is_busy := true }
    if 0 < porcentaje / 100 * 10 then
      let abierto := ActuatorBase.activar s1.valvula_fertilizante
      let cerrado := ActuatorBase.desactivar abierto.1
      ({ s1 with valvula_fertilizante := cerrado.1, is_busy := false },
        (if abierto.2 then [HwCall.fertOpen] else []) ++
        (if cerrado.2 then [HwCall.fertClose] else []))
    else
      ({ s1 with is_busy := false }, [])

/-- Model of `_accionar_actuadores` (controller.py lines 367-421): if busy, log and
return; otherwise drive pump, irrigation valve, fertilizer injector (via the
dosing routine when commanded, else close the valve) and the alternative
supply valve, in that order, updating the registry record after each driver
call.  Returns the new state and the GPIO calls issued in order. -/
def accionarActuadores (d : DictDecision) (s : SysState) :
    SysState × List HwCall :=
  if s.is_busy then (s, [])
  else
    let cmdB := d.activar_bomba.getD false
    let rB := if cmdB then ActuatorBase.activar s.bomba
              else ActuatorBase.desactivar s.bomba
    let callsB : List HwCall :=
      if rB.2 then [if cmdB then HwCall.pumpOn else HwCall.pumpOff] else []
    let s1 := { s with bomba := rB.1 }
    let cmdR := d.abrir_valvula_riego.getD false
    let rR := if cmdR then ActuatorBase.activar s1.valvula_riego
              else ActuatorBase.desactivar s1.valvula_riego
    let callsR : List HwCall :=
      if rR.2 then [if cmdR then HwCall.riegoOpen else HwCall.riegoClose] else []
    let s2 := { s1 with valvula_riego := rR.1 }
    let pasoF :=
      if d.inyectar_fertilizante.getD false then
        ajustarDosificacionFertilizante (d.porcentaje_fertilizante.getD 0) s2
      else
        let rF := ActuatorBase.desactivar s2.valvula_fertilizante
        ({ s2 with valvula_fertilizante := rF.1 },
          if rF.2 then [HwCall.fertClose] else [])
    let s3 := pasoF.1
    let cmdS := d.abrir_valvula_suministro.getD false
    let rS := if cmdS then ActuatorBase.activar s3.valvula_suministro
              else ActuatorBase.desactivar s3.valvula_suministro
    let callsS : List HwCall :=
      if rS.2 then [if cmdS then HwCall.sumOpen else HwCall.sumClose] else []
    ({ s3 with valvula_suministro := rS.1 },
      callsB ++ callsR ++ pasoF.2 ++ callsS)

/-- The mode-switch block of `_tomar_decision` (controller.py lines
316-322): a requested mode different from the current one is applied only
when the system is not busy. -/
def cambiarModoControl (nuevo : Mode) (s : SysState) : SysState :=
  if nuevo ≠ s.control_mode then
    if !s.is_busy then { s with control_mode := nuevo } else s
  else s

/-- The manual branch of `_tomar_decision` (controller.py lines 324-332):
the manual commands from the interface are used only when not busy, otherwise
the empty decision is returned. -/
def comandosManuales (cmds : DictDecision) (s : SysState) : DictDecision :=
  if !s.is_busy then cmds else DictDecision.empty

/-- Model of `_acciones_emergencia` of the controller (controller.py lines 803-864):
starts from the empty dict and applies the five rule blocks in order
(humidity, temperature, pH, CE, water level) with HARD-CODED limits,
independent of the season; later blocks overwrite fields set earlier. -/
def accionesEmergencia (sv : Snapshot) : DictDecision :=
  let d := DictDecision.empty
  let d :=
    if sv.humidity < 20 then
      { d with activar_bomba := some true, abrir_valvula_riego := some true }
    else if 80 < sv.humidity then
      { d with activar_bomba := some false, abrir_valvula_riego := some false }
    else d
  let d :=
    if 35 < sv.temperature then
      { d with activar_bomba := some true, abrir_valvula_riego := some true }
    else if sv.temperature < 10 then
      { d with activar_bomba := some false, abrir_valvula_riego := some false }
    else d
  let d :=
    if sv.ph < 5.5 then
      { d with inyectar_fertilizante := some true, porcentaje_fertilizante := some 5 }
    else if 7.5 < sv.ph then
      { d with inyectar_fertilizante := some true, porcentaje_fertilizante := some 5 }
    else d
  let d :=
    if sv.ce < 1 then
      { d with inyectar_fertilizante := some true, porcentaje_fertilizante := some 10 }
    else if 2.5 < sv.ce then
      { d with abrir_valvula_suministro := some true }
    else d
  let d :=
    if sv.water_level < 20 then
      { d with abrir_valvula_suministro := some true }
    else if 80 < sv.water_level then
      { d with abrir_valvula_suministro := some false }
    else d
  d

/-- The automatic branch of `_tomar_decision` (controller.py lines 333-356)
viewed as a decision: when some reading is outside the season band the
controller emergency actions are returned; otherwise the engine is consulted
for budget planning and the returned decision is emptied (line 356) so that
no actuator is driven in this cycle. -/
def decisionAutomatica (season : Season) (sv : Snapshot) : DictDecision :=
  if verificarUmbrales (umbralesControlador season) sv = false then
    accionesEmergencia sv
  else DictDecision.empty

/-- Humidity block of `acciones_emergencia` in decision_engine.py (lines
180-189); thresholds come from the season table `self.umbrales`. -/
def reglaHumedadE (u : Umbrales) (sv : Snapshot) (d : DictDecision) : DictDecision :=
  if sv.humidity < u.humidity.min then
    { d with activar_bomba := some true, abrir_valvula_riego := some true,
             cantidad_agua := some 10 }
  else if u.humidity.max < sv.humidity then
    { d with activar_bomba := some false, abrir_valvula_riego := some false }
  else d

/-- Temperature block of `acciones_emergencia` in decision_engine.py (lines
191-202). -/
def reglaTemperaturaE (u : Umbrales) (sv : Snapshot) (d : DictDecision) : DictDecision :=
  if u.temperature.max < sv.temperature then
    { d with activar_bomba := some true, abrir_valvula_riego := some true,
             cantidad_agua := some 10 }
  else if sv.temperature < u.temperature.min then
    { d with activar_bomba := some false, abrir_valvula_riego := some false }
  else d

/-- pH block of `acciones_emergencia` in decision_engine.py (lines 204-212). -/
def reglaPhE (u : Umbrales) (sv : Snapshot) (d : DictDecision) : DictDecision :=
  if sv.ph < u.ph.min then
    { d with inyectar_fertilizante := some true, porcentaje_fertilizante := some 5 }
  else if u.ph.max < sv.ph then
    { d with inyectar_fertilizante := some true, porcentaje_fertilizante := some 5 }
  else d

/-- CE block of `acciones_emergencia` in decision_engine.py (lines 214-221). -/
def reglaCeE (u : Umbrales) (sv : Snapshot) (d : DictDecision) : DictDecision :=
  if sv.ce < u.ce.min then
    { d with inyectar_fertilizante := some true, porcentaje_fertilizante := some 10 }
  else if u.ce.max < sv.ce then
    { d with abrir_valvula_suministro := some true }
  else d

/-- Water-level block of `acciones_emergencia` in decision_engine.py (lines
223-230). -/
def reglaNivelE (u : Umbrales) (sv : Snapshot) (d : DictDecision) : DictDecision :=
  if sv.water_level < u.water_level.min then
    { d with abrir_valvula_suministro := some true }
  else if u.water_level.max < sv.water_level then
    { d with abrir_valvula_suministro := some false }
  else d

/-- Model of `acciones_emergencia` of the decision engine (decision_engine.py lines
166-236): starts from a dict with all six keys present (all False / 0) and
applies the five rule blocks in order. -/
def accionesEmergenciaEngine (u : Umbrales) (sv : Snapshot) : DictDecision :=
  let d : DictDecision :=
    ⟨some false, some false, some false, some false, some 0, some 0⟩
  reglaNivelE u sv (reglaCeE u sv (reglaPhE u sv
    (reglaTemperaturaE u sv (reglaHumedadE u sv d))))

/-- Model of `_generar_decisiones` (decision_engine.py lines 293-336): maps the
(already clamped) model prediction into a full decision dict. -/
def generarDecisiones (u : Umbrales) (porcentaje cantidad : ℚ) (sv : Snapshot) :
    DictDecision :=
  let d : DictDecision :=
    ⟨some false, some false, some false, some false, some 0, some 0⟩
  let d :=
    if 0 < cantidad ∧ sv.humidity < u.humidity.max then
      { d with activar_bomba := some true, abrir_valvula_riego := some true,
               cantidad_agua := some cantidad }
    else d
  let d :=
    if 0 < porcentaje then
      { d with inyectar_fertilizante := some true,
               porcentaje_fertilizante := some porcentaje }
    else d
  if sv.water_level < u.water_level.min then
    { d with abrir_valvula_suministro := some true }
  else
    { d with abrir_valvula_suministro := some false }

/-- Model of `_decisiones_por_defecto` (decision_engine.py lines 387-431): the
degraded path used when the model cannot be consulted; only humidity, CE and
water level are examined. -/
def decisionesPorDefecto (u : Umbrales) (sv : Snapshot) : DictDecision :=
  let d : DictDecision :=
    ⟨some false, some false, some false, some false, some 0, some 0⟩
  let d :=
    if sv.humidity < u.humidity.min then
      { d with activar_bomba := some true, abrir_valvula_riego := some true,
               cantidad_agua := some 10 }
    else d
  let d :=
    if sv.ce < u.ce.min then
      { d with inyectar_fertilizante := some true, porcentaje_fertilizante := some 5 }
    else if u.ce.max < sv.ce then
      { d with inyectar_fertilizante := some false }
    else d
  if sv.water_level < u.water_level.min then
    { d with abrir_valvula_suministro := some true }
  else
    { d with abrir_valvula_suministro := some false }

/-- Outcome of consulting the ML model inside `evaluar`: no model loaded
(decision_engine.py line 77), prediction of unexpected shape (lines 127-129),
prediction not an ndarray (lines 133-136), an exception during the attempt
(lines 144-147), or a prediction pair. -/
inductive ModelOutcome where
  | noModel
  | badShape
  | notArray
  | errored
  | ok (porcentaje cantidad : ℚ)
deriving DecidableEq, Repr

/-- Model of `DecisionEngine.evaluar` (decision_engine.py lines 59-147): set the
season table, run the threshold check, take emergency actions when it fails;
otherwise use the model when it yields a prediction pair (clamping both
components at 0, lines 131-132) and fall back to the default decisions in
every other outcome. -/
def evaluar (season : Season) (m : ModelOutcome) (sv : Snapshot) : DictDecision :=
  if verificarUmbrales (umbralesEngine season) sv = false then
    accionesEmergenciaEngine (umbralesEngine season) sv
  else
    match m with
    | ModelOutcome.ok porcentaje cantidad =>
        generarDecisiones (umbralesEngine season) (max 0 porcentaje)
          (max 0 cantidad) sv
    | _ => decisionesPorDefecto (umbralesEngine season) sv

/-- Model of `FlowSensor.detectar_fallo` (sensors.py lines 457-486): a missing
reading is an anomaly; with an expected flow of zero, an anomaly is any
reading above the minimal-flow threshold; with a positive expected flow, an
anomaly is a reading below expected*(1 - tolerance) (blockage) or above
expected*(1 + tolerance) (leak).  Total (never throws). -/
def detectarFallo (lastReading : Option ℚ) (expectedFlow : Option ℚ)
    (tolerance minimalFlowThreshold : ℚ) : Bool :=
  match lastReading with
  | none => true
  | some r =>
    match expectedFlow with
    | none => false
    | some e =>
      if e = 0 then decide (minimalFlowThreshold < r)
      else if r < e * (1 - tolerance) then true
      else if e * (1 + tolerance) < r then true
      else false

/-- Model of `_verificar_anomalias` (controller.py lines 232-263): expected flow is
the nominal constant 30 when pump and irrigation valve are both on, else 0;
the sensor tolerance is 0.2 and the minimal-flow threshold defaults to 0.5
(sensors.py lines 467-469 with the calibration of controller.py lines
45-48). -/
def verificarAnomalias (bombaActiva valvulaRiegoAbierta : Bool)
    (lastReading : Option ℚ) : Bool :=
  detectarFallo lastReading
    (some (if bombaActiva && valvulaRiegoAbierta then 30 else 0))
    (2/10) (1/2)

/-- Model of `_iniciar_evento_riego` (controller.py lines 500-532): a no-op when no
water remains; otherwise the event is allotted `total / num_events`, capped
by the remaining water, the remaining water is reduced by the allotment, and
the irrigation decision of lines 522-529 is issued to `_controlar_riego`.
Note: the busy flag is NOT consulted. -/
def iniciarEventoRiego (s : SysState) : SysState × Option DictDecision :=
  if s.remaining_daily_water ≤ 0 then (s, none)
  else
    let waterPerEvent0 := s.total_daily_water / (s.num_events : ℚ)
    let waterPerEvent :=
      if s.remaining_daily_water < waterPerEvent0 then s.remaining_daily_water
      else waterPerEvent0
    ({ s with remaining_daily_water := s.remaining_daily_water - waterPerEvent },
      some ⟨some true, some true,
            some (decide (0 < s.daily_fertilizer_percentage)), some false,
            some s.daily_fertilizer_percentage, some waterPerEvent⟩)

/-- The metered watering loop of `_controlar_riego` (controller.py lines
555-577), run over a finite trace of (flow-rate, timestamp) readings:
while the integrated volume is below the target, consume a reading, add
`flowRate / 60 * dt`, and break once the elapsed time since `t0` exceeds the
1800 s ceiling.  Returns the final volume and the number of readings
consumed. -/
def riegoLoop (target t0 : ℚ) : List (ℚ × ℚ) → ℚ → ℚ → ℚ × ℕ
  | [], _, vol => (vol, 0)
  | (f, t) :: rest, tLast, vol =>
    if vol < target then
      let vol2 := vol + f / 60 * (t - tLast)
      if 1800 < t - t0 then (vol2, 1)
      else
        let r := riegoLoop target t0 rest t vol2
        (r.1, r.2 + 1)
    else (vol, 0)

/-- Model of `_controlar_riego` (controller.py lines 534-602) restricted to its state
effect: set busy, drive the actuators with the event decision (a call that
returns immediately because busy was just set), run the metered loop (which
only accumulates a local volume), and on BOTH the normal exit (completion or
ceiling, lines 579-592) and the exception path (lines 594-602) force the pump
and the irrigation valve off, record them off and clear busy. -/
def controlarRiego (d : DictDecision) (excepcion : Bool) (s : SysState) : SysState :=
  let s1 := { s with is_busy := true }
  if excepcion then
    { s1 with bomba := false, valvula_riego := false, is_busy := false }
  else
    let s2 := (accionarActuadores d s1).1
    { s2 with bomba := false, valvula_riego := false, is_busy := false }

/-- A scheduled irrigation firing end to end: `_iniciar_evento_riego`
followed, when a decision was issued, by the `_controlar_riego` thread it
spawns (controller.py line 532). -/
def eventoRiegoRun (excepcion : Bool) (s : SysState) : SysState :=
  match iniciarEventoRiego s with
  | (s1, none) => s1
  | (s1, some d) => controlarRiego d excepcion s1

/-- All six command fields present, with both numeric fields nonnegative. -/
def GoodDecision (d : DictDecision) : Prop :=
  d.activar_bomba.isSome ∧ d.abrir_valvula_riego.isSome ∧
  d.inyectar_fertilizante.isSome ∧ d.abrir_valvula_suministro.isSome ∧
  d.porcentaje_fertilizante.isSome ∧ d.cantidad_agua.isSome ∧
  (∀ q, d.porcentaje_fertilizante = some q → 0 ≤ q) ∧
  (∀ q, d.cantidad_agua = some q → 0 ≤ q)

/-- C3: The flow anomaly detector is total and decided as follows: a missing
reading is an anomaly; with pump or irrigation valve off the expected flow is
0 and the result is an anomaly exactly when the observed flow exceeds the
0.5 minimal-flow threshold; with pump and valve both on the expected flow is
30 and the result is an anomaly exactly when the observed flow is below
30*(1 - 0.2) = 24 (blockage) or above 30*(1 + 0.2) = 36 (leak).  The four
documented cases follow: 0 off/off no anomaly, 40 off/off anomaly, 5 on/on
anomaly, 28 on/on no anomaly. -/
theorem claim_C3 :
    (∀ e tol m, detectarFallo none e tol m = true) ∧
    (∀ (bomba valvula : Bool) (flujo : ℚ),
      verificarAnomalias bomba valvula (some flujo) =
        if bomba && valvula then decide (flujo < 24) || decide (36 < flujo)
        else decide ((1:ℚ)/2 < flujo)) ∧
    verificarAnomalias false false (some 0) = false ∧
    verificarAnomalias false false (some 40) = true ∧
    verificarAnomalias true true (some 5) = true ∧
    verificarAnomalias true true (some 28) = false := by
  have general : ∀ (bomba valvula : Bool) (flujo : ℚ),
      verificarAnomalias bomba valvula (some flujo) =
        if bomba && valvula then decide (flujo < 24) || decide (36 < flujo)
        else decide ((1:ℚ)/2 < flujo) := by
    intro bomba valvula flujo
    cases bomba <;> cases valvula <;>
      simp only [verificarAnomalias, detectarFallo, Bool.and_self, Bool.and_false,
        Bool.and_true, Bool.false_and, if_true, if_false] <;>
      norm_num
  refine ⟨fun e tol m => rfl, general, ?_, ?_, ?_, ?_⟩ <;>
    rw [general] <;> norm_num

/-- C4: A fired irrigation event is allotted min(total/num_events,
remaining); the remaining water decreases by exactly the allotment and stays
nonnegative; an event fired with remaining at or below 0 changes neither the
budget nor the actuators.  With total 30, 3 events and remaining 30 the
allotments are 10, 10, 10, the remaining water runs through 20, 10, 0 and a
4th event is a no-op. -/
theorem claim_C4 (s : SysState) :
    (s.remaining_daily_water ≤ 0 →
      iniciarEventoRiego s = (s, none) ∧
      ∀ exc, eventoRiegoRun exc s = s) ∧
    (0 < s.remaining_daily_water → 0 < s.num_events →
      (iniciarEventoRiego s).1.remaining_daily_water =
        s.remaining_daily_water -
          min (s.total_daily_water / (s.num_events : ℚ)) s.remaining_daily_water ∧
      (iniciarEventoRiego s).1.total_daily_water = s.total_daily_water ∧
      ∃ d, (iniciarEventoRiego s).2 = some d ∧
        d.cantidad_agua =
          some (min (s.total_daily_water / (s.num_events : ℚ))
            s.remaining_daily_water)) ∧
    (0 ≤ s.remaining_daily_water →
      0 ≤ (iniciarEventoRiego s).1.remaining_daily_water) ∧
    (s.total_daily_water = 30 → s.remaining_daily_water = 30 →
      s.num_events = 3 →
      ((iniciarEventoRiego s).2.bind DictDecision.cantidad_agua = some 10 ∧
       (iniciarEventoRiego s).1.remaining_daily_water = 20 ∧
       (iniciarEventoRiego (iniciarEventoRiego s).1).2.bind
          DictDecision.cantidad_agua = some 10 ∧
       (iniciarEventoRiego (iniciarEventoRiego s).1).1.remaining_daily_water = 10 ∧
       (iniciarEventoRiego
          (iniciarEventoRiego (iniciarEventoRiego s).1).1).2.bind
          DictDecision.cantidad_agua = some 10 ∧
       (iniciarEventoRiego
          (iniciarEventoRiego (iniciarEventoRiego s).1).1).1.remaining_daily_water
          = 0 ∧
       iniciarEventoRiego
          (iniciarEventoRiego
            (iniciarEventoRiego (iniciarEventoRiego s).1).1).1 =
        ((iniciarEventoRiego
            (iniciarEventoRiego (iniciarEventoRiego s).1).1).1, none))) := by
  refine ⟨fun h => ?_, fun hpos hn => ?_, fun hnn => ?_, fun h30 hr30 hn3 => ?_⟩
  · have hni : iniciarEventoRiego s = (s, none) := by
      simp [iniciarEventoRiego, h]
    exact ⟨hni, fun exc => by simp [eventoRiegoRun, hni]⟩
  · have hmin : (if s.remaining_daily_water <
          s.total_daily_water / (s.num_events : ℚ) then s.remaining_daily_water
        else s.total_daily_water / (s.num_events : ℚ)) =
        min (s.total_daily_water / (s.num_events : ℚ)) s.remaining_daily_water := by
      rcases lt_or_le s.remaining_daily_water
          (s.total_daily_water / (s.num_events : ℚ)) with h | h
      · rw [if_pos h, min_eq_right h.le]
      · rw [if_neg (not_lt.mpr h), min_eq_left h]
    simp only [iniciarEventoRiego, if_neg (not_le.mpr hpos)]
    refine ⟨?_, ?_, ?_⟩
    · simp only [← hmin]
    · trivial
    · exact ⟨_, rfl, by simp only [← hmin]⟩
  · rcases eq_or_lt_of_le hnn with h | h
    · simp [iniciarEventoRiego, ← h]
    · simp only [iniciarEventoRiego, if_neg (not_le.mpr h)]
      split <;> simp
      all_goals linarith [min_le_right (s.total_daily_water / (s.num_events : ℚ)) s.remaining_daily_water]
  · have e1 : iniciarEventoRiego s =
        ({ s with remaining_daily_water := 20 },
          some ⟨some true, some true,
            some (decide (0 < s.daily_fertilizer_percentage)), some false,
            some s.daily_fertilizer_percentage, some 10⟩) := by
      simp only [iniciarEventoRiego, h30, hr30, hn3]
      norm_num
    have e2 : iniciarEventoRiego ({ s with remaining_daily_water := 20 }) =
        ({ s with remaining_daily_water := 10 },
          some ⟨some true, some true,
            some (decide (0 < s.daily_fertilizer_percentage)), some false,
            some s.daily_fertilizer_percentage, some 10⟩) := by
      simp only [iniciarEventoRiego, h30, hn3]
      norm_num
    have e3 : iniciarEventoRiego ({ s with remaining_daily_water := 10 }) =
        ({ s with remaining_daily_water := 0 },
          some ⟨some true, some true,
            some (decide (0 < s.daily_fertilizer_percentage)), some false,
            some s.daily_fertilizer_percentage, some 10⟩) := by
      simp only [iniciarEventoRiego, h30, hn3]
      norm_num
    have e4 : iniciarEventoRiego ({ s with remaining_daily_water := 0 }) =
        ({ s with remaining_daily_water := 0 }, none) := by
      simp [iniciarEventoRiego]
    rw [e1]
    simp only [Option.bind, e2, e3, e4]
    norm_num

/-- Witness for C4 at the concrete budget states of the spec example. -/
theorem claim_C4_wit :
    iniciarEventoRiego ⟨Mode.automatic, false, false, false, false, false, 30, 0, 0, 3⟩ =
      (⟨Mode.automatic, false, false, false, false, false, 30, 0, 0, 3⟩, none) ∧
    (iniciarEventoRiego
        ⟨Mode.automatic, false, false, false, false, false, 30, 30, 0, 3⟩).1.remaining_daily_water =
      30 - min ((30 : ℚ) / ((3 : ℕ) : ℚ)) 30 ∧
    0 ≤ (iniciarEventoRiego
        ⟨Mode.automatic, false, false, false, false, false, 30, 30, 0, 3⟩).1.remaining_daily_water ∧
    (iniciarEventoRiego
        ⟨Mode.automatic, false, false, false, false, false, 30, 30, 0, 3⟩).2.bind
      DictDecision.cantidad_agua = some 10 :=
  ⟨((claim_C4 _).1 (le_refl 0)).1,
   ((claim_C4 _).2.1 (by norm_num) (by norm_num)).1,
   (claim_C4 _).2.2.1 (by norm_num),
   ((claim_C4 _).2.2.2 rfl rfl rfl).1⟩

/-- C5 counterexample: pump currently on (record true, estado true), command
off, driver fails.  The error is propagated but the registry record is NOT
set to the safe default off: it stays true, contrary to the claim. -/
theorem claim_C5_cex :
    (aplicarBombaConFallo false true true true).2 = true ∧
    (aplicarBombaConFallo false true true true).1.1 = true :=
  ⟨rfl, rfl⟩

/-- C5 amended: on a driver failure during apply the error is propagated,
not swallowed, but no rollback to off happens: the registry record keeps its
previous value (it is only updated after a successful driver call), so the
record still reflects the last successfully applied command, while the
ActuatorBase internal estado has already been set to the commanded value; an
exception propagates exactly when the driver fails on an actual transition. -/
theorem claim_C5 (cmd driverFalla record estado : Bool) :
    ((aplicarBombaConFallo cmd driverFalla record estado).2 = true →
      (aplicarBombaConFallo cmd driverFalla record estado).1.1 = record) ∧
    ((aplicarBombaConFallo cmd driverFalla record estado).2 = false →
      (aplicarBombaConFallo cmd driverFalla record estado).1.1 = cmd) ∧
    (aplicarBombaConFallo cmd driverFalla record estado).1.2 = cmd ∧
    ((aplicarBombaConFallo cmd driverFalla record estado).2 = true ↔
      driverFalla = true ∧ estado ≠ cmd) := by
  cases cmd <;> cases driverFalla <;> cases record <;> cases estado <;>
    simp [aplicarBombaConFallo, ActuatorBase.activarConFallo,
      ActuatorBase.desactivarConFallo]

/-- Witness for C5 at a failing deactivation of an on pump. -/
theorem claim_C5_wit :
    (aplicarBombaConFallo false true true true).1.1 = true ∧
    (aplicarBombaConFallo true false true false).1.1 = true ∧
    (aplicarBombaConFallo false true true true).1.2 = false :=
  ⟨(claim_C5 false true true true).1 rfl,
   (claim_C5 true false true false).2.1 rfl,
   (claim_C5 false true true true).2.2.1⟩

/-- Each engine emergency rule block preserves presence and nonnegativity of
all six fields. -/
theorem reglaHumedadE_good (u : Umbrales) (sv : Snapshot) {d : DictDecision}
    (h : GoodDecision d) : GoodDecision (reglaHumedadE u sv d) := by
  obtain ⟨h1, h2, h3, h4, h5, h6, h7, h8⟩ := h
  simp only [reglaHumedadE, GoodDecision]
  split_ifs <;> simp_all

/-- Temperature block preservation, as `reglaHumedadE_good`. -/
theorem reglaTemperaturaE_good (u : Umbrales) (sv : Snapshot) {d : DictDecision}
    (h : GoodDecision d) : GoodDecision (reglaTemperaturaE u sv d) := by
  obtain ⟨h1, h2, h3, h4, h5, h6, h7, h8⟩ := h
  simp only [reglaTemperaturaE, GoodDecision]
  split_ifs <;> simp_all

/-- pH block preservation. -/
theorem reglaPhE_good (u : Umbrales) (sv : Snapshot) {d : DictDecision}
    (h : GoodDecision d) : GoodDecision (reglaPhE u sv d) := by
  obtain ⟨h1, h2, h3, h4, h5, h6, h7, h8⟩ := h
  simp only [reglaPhE, GoodDecision]
  split_ifs <;> simp_all

/-- CE block preservation. -/
theorem reglaCeE_good (u : Umbrales) (sv : Snapshot) {d : DictDecision}
    (h : GoodDecision d) : GoodDecision (reglaCeE u sv d) := by
  obtain ⟨h1, h2, h3, h4, h5, h6, h7, h8⟩ := h
  simp only [reglaCeE, GoodDecision]
  split_ifs <;> simp_all

/-- Water-level block preservation. -/
theorem reglaNivelE_good (u : Umbrales) (sv : Snapshot) {d : DictDecision}
    (h : GoodDecision d) : GoodDecision (reglaNivelE u sv d) := by
  obtain ⟨h1, h2, h3, h4, h5, h6, h7, h8⟩ := h
  simp only [reglaNivelE, GoodDecision]
  split_ifs <;> simp_all

/-- The engine emergency decision has all six fields with nonnegative
numeric values. -/
theorem accionesEmergenciaEngine_good (u : Umbrales) (sv : Snapshot) :
    GoodDecision (accionesEmergenciaEngine u sv) := by
  unfold accionesEmergenciaEngine
  apply reglaNivelE_good
  apply reglaCeE_good
  apply reglaPhE_good
  apply reglaTemperaturaE_good
  apply reglaHumedadE_good
  refine ⟨rfl, rfl, rfl, rfl, rfl, rfl, fun q hq => ?_, fun q hq => ?_⟩ <;>
    · simp at hq; simp [← hq]

/-- The model-driven decision is good whenever the inputs are nonnegative. -/
theorem generarDecisiones_good (u : Umbrales) (sv : Snapshot)
    {porcentaje cantidad : ℚ} (hp : 0 ≤ porcentaje) (hc : 0 ≤ cantidad) :
    GoodDecision (generarDecisiones u porcentaje cantidad sv) := by
  simp only [generarDecisiones, GoodDecision]
  split_ifs <;> simp_all

/-- The default fallback decision is good. -/
theorem decisionesPorDefecto_good (u : Umbrales) (sv : Snapshot) :
    GoodDecision (decisionesPorDefecto u sv) := by
  simp only [decisionesPorDefecto, GoodDecision]
  split_ifs <;> simp_all

/-- C9: Every decision dictionary produced by evaluar, on the emergency
path, the model path and the default fallback path alike, contains all six
command fields, with porcentaje_fertilizante and cantidad_agua both
nonnegative. -/
theorem claim_C9 (season : Season) (m : ModelOutcome) (sv : Snapshot) :
    GoodDecision (evaluar season m sv) := by
  unfold evaluar
  by_cases hv : verificarUmbrales (umbralesEngine season) sv = false
  · rw [if_pos hv]
    exact accionesEmergenciaEngine_good _ _
  · rw [if_neg hv]
    cases m with
    | ok porcentaje cantidad =>
        exact generarDecisiones_good _ _ (le_max_left 0 porcentaje)
          (le_max_left 0 cantidad)
    | noModel => exact decisionesPorDefecto_good _ _
    | badShape => exact decisionesPorDefecto_good _ _
    | notArray => exact decisionesPorDefecto_good _ _
    | errored => exact decisionesPorDefecto_good _ _

/-- Field value of the model-driven decision: pump. -/
theorem generar_bomba (u : Umbrales) (porcentaje cantidad : ℚ) (sv : Snapshot) :
    (generarDecisiones u porcentaje cantidad sv).activar_bomba =
      some (decide (0 < cantidad ∧ sv.humidity < u.humidity.max)) := by
  simp only [generarDecisiones]
  split_ifs <;> simp_all

/-- Field value of the model-driven decision: irrigation valve. -/
theorem generar_riego (u : Umbrales) (porcentaje cantidad : ℚ) (sv : Snapshot) :
    (generarDecisiones u porcentaje cantidad sv).abrir_valvula_riego =
      some (decide (0 < cantidad ∧ sv.humidity < u.humidity.max)) := by
  simp only [generarDecisiones]
  split_ifs <;> simp_all

/-- Field value of the model-driven decision: fertilizer injection. -/
theorem generar_inyectar (u : Umbrales) (porcentaje cantidad : ℚ) (sv : Snapshot) :
    (generarDecisiones u porcentaje cantidad sv).inyectar_fertilizante =
      some (decide (0 < porcentaje)) := by
  simp only [generarDecisiones]
  split_ifs <;> simp_all

/-- Field value of the model-driven decision: fertilizer percentage. -/
theorem generar_porcentaje (u : Umbrales) (porcentaje cantidad : ℚ) (sv : Snapshot) :
    (generarDecisiones u porcentaje cantidad sv).porcentaje_fertilizante =
      some (if 0 < porcentaje then porcentaje else 0) := by
  simp only [generarDecisiones]
  split_ifs <;> simp_all

/-- Field value of the model-driven decision: water amount. -/
theorem generar_cantidad (u : Umbrales) (porcentaje cantidad : ℚ) (sv : Snapshot) :
    (generarDecisiones u porcentaje cantidad sv).cantidad_agua =
      some (if 0 < cantidad ∧ sv.humidity < u.humidity.max then cantidad else 0) := by
  simp only [generarDecisiones]
  split_ifs <;> simp_all

/-- Field value of the model-driven decision: alternative supply valve. -/
theorem generar_suministro (u : Umbrales) (porcentaje cantidad : ℚ) (sv : Snapshot) :
    (generarDecisiones u porcentaje cantidad sv).abrir_valvula_suministro =
      some (decide (sv.water_level < u.water_level.min)) := by
  simp only [generarDecisiones]
  split_ifs <;> simp_all

/-- With thresholds satisfied the model path of evaluar is the clamped
generarDecisiones. -/
theorem evaluar_ok (season : Season) (m : ModelOutcome) (sv : Snapshot)
    (hv : verificarUmbrales (umbralesEngine season) sv = true) :
    evaluar season m sv =
      match m with
      | ModelOutcome.ok porcentaje cantidad =>
          generarDecisiones (umbralesEngine season) (max 0 porcentaje)
            (max 0 cantidad) sv
      | _ => decisionesPorDefecto (umbralesEngine season) sv := by
  unfold evaluar
  rw [if_neg (by simp [hv])]

/-- C8: When every reading satisfies the engine season thresholds and the
model yields a prediction pair, the resulting decision activates pump and
irrigation valve exactly when the predicted water amount is positive and the
humidity is below the season maximum, injects fertilizer exactly when the
predicted percentage is positive, opens the alternative supply exactly when
the water level is below the season minimum, and both numeric fields are
clamped nonnegative; on every non-prediction outcome (no model, bad shape,
not an ndarray, exception) evaluation is exactly the total default rule set,
which depends only on humidity, CE and water level. -/
theorem claim_C8 (season : Season) (sv : Snapshot) (porcentaje cantidad : ℚ)
    (hv : verificarUmbrales (umbralesEngine season) sv = true) :
    ((evaluar season (ModelOutcome.ok porcentaje cantidad) sv).activar_bomba =
        some true ↔
      0 < cantidad ∧ sv.humidity < (umbralesEngine season).humidity.max) ∧
    ((evaluar season (ModelOutcome.ok porcentaje cantidad) sv).abrir_valvula_riego =
        some true ↔
      0 < cantidad ∧ sv.humidity < (umbralesEngine season).humidity.max) ∧
    ((evaluar season (ModelOutcome.ok porcentaje cantidad) sv).inyectar_fertilizante =
        some true ↔ 0 < porcentaje) ∧
    ((evaluar season (ModelOutcome.ok porcentaje cantidad) sv).abrir_valvula_suministro =
        some true ↔
      sv.water_level < (umbralesEngine season).water_level.min) ∧
    (∀ q, (evaluar season (ModelOutcome.ok porcentaje cantidad) sv).porcentaje_fertilizante =
        some q → 0 ≤ q) ∧
    (∀ q, (evaluar season (ModelOutcome.ok porcentaje cantidad) sv).cantidad_agua =
        some q → 0 ≤ q) ∧
    evaluar season ModelOutcome.noModel sv =
      decisionesPorDefecto (umbralesEngine season) sv ∧
    evaluar season ModelOutcome.badShape sv =
      decisionesPorDefecto (umbralesEngine season) sv ∧
    evaluar season ModelOutcome.notArray sv =
      decisionesPorDefecto (umbralesEngine season) sv ∧
    evaluar season ModelOutcome.errored sv =
      decisionesPorDefecto (umbralesEngine season) sv ∧
    (∀ sv2 : Snapshot, sv2.humidity = sv.humidity → sv2.ce = sv.ce →
      sv2.water_level = sv.water_level →
      decisionesPorDefecto (umbralesEngine season) sv2 =
        decisionesPorDefecto (umbralesEngine season) sv) := by
  have he := evaluar_ok season (ModelOutcome.ok porcentaje cantidad) sv hv
  simp only at he
  refine ⟨?_, ?_, ?_, ?_, ?_, ?_, evaluar_ok season _ sv hv,
    evaluar_ok season _ sv hv, evaluar_ok season _ sv hv,
    evaluar_ok season _ sv hv, ?_⟩
  · rw [he, generar_bomba]
    simp [lt_max_iff]
  · rw [he, generar_riego]
    simp [lt_max_iff]
  · rw [he, generar_inyectar]
    simp [lt_max_iff]
  · rw [he, generar_suministro]
    simp
  · rw [he, generar_porcentaje]
    intro q hq
    split at hq <;> simp at hq <;> simp [← hq]
  · rw [he, generar_cantidad]
    intro q hq
    split at hq <;> simp at hq <;> simp [← hq]
  · intro sv2 h1 h2 h3
    unfold decisionesPorDefecto
    rw [h1, h2, h3]

/-- Witness for C8 at a summer in-band snapshot with prediction (5, 10). -/
theorem claim_C8_wit :
    ((evaluar Season.summer (ModelOutcome.ok 5 10)
        ⟨50, 25, 6.5, 1.5, 50, 30⟩).activar_bomba = some true ↔
      (0:ℚ) < 10 ∧ (50:ℚ) < (umbralesEngine Season.summer).humidity.max) ∧
    evaluar Season.summer ModelOutcome.noModel ⟨50, 25, 6.5, 1.5, 50, 30⟩ =
      decisionesPorDefecto (umbralesEngine Season.summer)
        ⟨50, 25, 6.5, 1.5, 50, 30⟩ :=
  ⟨(claim_C8 Season.summer ⟨50, 25, 6.5, 1.5, 50, 30⟩ 5 10
      (by norm_num [verificarUmbrales, enRango, umbralesEngine])).1,
   (claim_C8 Season.summer ⟨50, 25, 6.5, 1.5, 50, 30⟩ 5 10
      (by norm_num [verificarUmbrales, enRango, umbralesEngine])).2.2.2.2.2.2.1⟩

/-- C2 counterexample: in winter, a snapshot with humidity 29 (one unit
below the winter minimum 30) and every other field inside the winter bands
fails the threshold check, yet the controller emergency actions fire NO rule
(their humidity limit is the hard-coded 20, not the seasonal 30), so the
decision is empty instead of commanding pump and irrigation valve on. -/
theorem claim_C2_cex :
    verificarUmbrales (umbralesControlador Season.winter)
      ⟨29, 15, 6.5, 1.5, 50, 30⟩ = false ∧
    accionesEmergencia ⟨29, 15, 6.5, 1.5, 50, 30⟩ = DictDecision.empty ∧
    decisionAutomatica Season.winter ⟨29, 15, 6.5, 1.5, 50, 30⟩ =
      DictDecision.empty := by
  refine ⟨?_, ?_, ?_⟩
  · norm_num [verificarUmbrales, enRango, umbralesControlador]
  · norm_num [accionesEmergencia]
  · norm_num [decisionAutomatica, verificarUmbrales, enRango,
      umbralesControlador, accionesEmergencia]

/-- C2 amended: the controller emergency actions use hard-coded limits
(humidity 20/80, temperature 35/10, pH 5.5/7.5, CE 1.0/2.5, water level
20/80) independent of the season, while the threshold check is
season-specific.  For summer, a snapshot one unit beyond the documented band
limit on one field with all other fields inside both the seasonal and the
hard-coded bands fails the threshold check and the automatic decision is
exactly the documented rule for that field; the rules run in the fixed order
humidity, temperature, pH, CE, water level and a later rule overwrites
fields set earlier (shown for CE high followed by water level high); and for
every season a snapshot with every field inside the seasonal band passes the
check and takes no emergency action. -/
theorem claim_C2 :
    (verificarUmbrales (umbralesControlador Season.summer)
        ⟨19, 25, 6.5, 1.5, 50, 30⟩ = false ∧
      decisionAutomatica Season.summer ⟨19, 25, 6.5, 1.5, 50, 30⟩ =
        ⟨some true, some true, none, none, none, none⟩) ∧
    (verificarUmbrales (umbralesControlador Season.summer)
        ⟨50, 41, 6.5, 1.5, 50, 30⟩ = false ∧
      decisionAutomatica Season.summer ⟨50, 41, 6.5, 1.5, 50, 30⟩ =
        ⟨some true, some true, none, none, none, none⟩) ∧
    (verificarUmbrales (umbralesControlador Season.summer)
        ⟨50, 25, 4.5, 1.5, 50, 30⟩ = false ∧
      decisionAutomatica Season.summer ⟨50, 25, 4.5, 1.5, 50, 30⟩ =
        ⟨none, none, some true, none, some 5, none⟩) ∧
    (verificarUmbrales (umbralesControlador Season.summer)
        ⟨50, 25, 8.5, 1.5, 50, 30⟩ = false ∧
      decisionAutomatica Season.summer ⟨50, 25, 8.5, 1.5, 50, 30⟩ =
        ⟨none, none, some true, none, some 5, none⟩) ∧
    (verificarUmbrales (umbralesControlador Season.summer)
        ⟨50, 25, 6.5, 0, 50, 30⟩ = false ∧
      decisionAutomatica Season.summer ⟨50, 25, 6.5, 0, 50, 30⟩ =
        ⟨none, none, some true, none, some 10, none⟩) ∧
    (verificarUmbrales (umbralesControlador Season.summer)
        ⟨50, 25, 6.5, 3.5, 50, 30⟩ = false ∧
      decisionAutomatica Season.summer ⟨50, 25, 6.5, 3.5, 50, 30⟩ =
        ⟨none, none, none, some true, none, none⟩) ∧
    (verificarUmbrales (umbralesControlador Season.summer)
        ⟨50, 25, 6.5, 1.5, 19, 30⟩ = false ∧
      decisionAutomatica Season.summer ⟨50, 25, 6.5, 1.5, 19, 30⟩ =
        ⟨none, none, none, some true, none, none⟩) ∧
    (accionesEmergencia ⟨50, 25, 6.5, 3.5, 81, 30⟩ =
      ⟨none, none, none, some false, none, none⟩) ∧
    (∀ (season : Season) (sv : Snapshot),
      verificarUmbrales (umbralesControlador season) sv = true →
      decisionAutomatica season sv = DictDecision.empty) := by
  refine ⟨⟨?_, ?_⟩, ⟨?_, ?_⟩, ⟨?_, ?_⟩, ⟨?_, ?_⟩, ⟨?_, ?_⟩, ⟨?_, ?_⟩,
    ⟨?_, ?_⟩, ?_, fun season sv hv => by simp [decisionAutomatica, hv]⟩ <;>
    norm_num [decisionAutomatica, verificarUmbrales, enRango,
      umbralesControlador, accionesEmergencia, DictDecision.empty]

/-- Witness for C2 at a winter in-band snapshot. -/
theorem claim_C2_wit :
    decisionAutomatica Season.winter ⟨50, 15, 6.5, 1.5, 50, 30⟩ =
      DictDecision.empty :=
  claim_C2.2.2.2.2.2.2.2.2 Season.winter ⟨50, 15, 6.5, 1.5, 50, 30⟩
    (by norm_num [verificarUmbrales, enRango, umbralesControlador])

/-- C6: The metered watering loop stops as soon as the integrated volume
reaches the allotted amount (consuming no further reading) or the elapsed
time exceeds the 1800 s ceiling (stopping right at that reading), and
continues exactly while neither holds; and on every exit path of the
irrigation run, the normal one and the exception one alike, the pump and the
irrigation valve are forced off, recorded off, and the busy flag is
cleared. -/
theorem claim_C6 (target t0 : ℚ) :
    (∀ (d : DictDecision) (exc : Bool) (s : SysState),
      (controlarRiego d exc s).bomba = false ∧
      (controlarRiego d exc s).valvula_riego = false ∧
      (controlarRiego d exc s).is_busy = false) ∧
    (∀ (trace : List (ℚ × ℚ)) (tLast vol : ℚ), target ≤ vol →
      riegoLoop target t0 trace tLast vol = (vol, 0)) ∧
    (∀ (f t : ℚ) (rest : List (ℚ × ℚ)) (tLast vol : ℚ),
      vol < target → 1800 < t - t0 →
      riegoLoop target t0 ((f, t) :: rest) tLast vol =
        (vol + f / 60 * (t - tLast), 1)) ∧
    (∀ (f t : ℚ) (rest : List (ℚ × ℚ)) (tLast vol : ℚ),
      vol < target → t - t0 ≤ 1800 →
      riegoLoop target t0 ((f, t) :: rest) tLast vol =
        ((riegoLoop target t0 rest t (vol + f / 60 * (t - tLast))).1,
         (riegoLoop target t0 rest t (vol + f / 60 * (t - tLast))).2 + 1)) := by
  refine ⟨fun d exc s => ?_, fun trace tLast vol h => ?_,
    fun f t rest tLast vol h1 h2 => ?_, fun f t rest tLast vol h1 h2 => ?_⟩
  · cases exc <;> exact ⟨rfl, rfl, rfl⟩
  · cases trace with
    | nil => rfl
    | cons reading rest =>
        obtain ⟨f, t⟩ := reading
        simp only [riegoLoop]
        rw [if_neg (not_lt.mpr h)]
  · simp only [riegoLoop]
    rw [if_pos h1, if_pos h2]
  · simp only [riegoLoop]
    rw [if_pos h1, if_neg (not_lt.mpr h2)]

/-- Witness for C6: cleanup of a run, completion stop, ceiling stop and a
continuing step, at concrete values. -/
theorem claim_C6_wit :
    (controlarRiego DictDecision.empty false
      ⟨Mode.automatic, false, true, true, false, false, 30, 20, 0, 2⟩).bomba =
        false ∧
    riegoLoop 10 0 [(60, 5)] 0 10 = (10, 0) ∧
    riegoLoop 10 0 [(60, 2000)] 0 0 = (0 + 60 / 60 * (2000 - 0), 1) ∧
    riegoLoop 10 0 [(60, 100)] 0 0 =
      ((riegoLoop 10 0 [] 100 (0 + 60 / 60 * (100 - 0))).1,
       (riegoLoop 10 0 [] 100 (0 + 60 / 60 * (100 - 0))).2 + 1) :=
  ⟨((claim_C6 10 0).1 DictDecision.empty false
      ⟨Mode.automatic, false, true, true, false, false, 30, 20, 0, 2⟩).1,
   (claim_C6 10 0).2.1 [(60, 5)] 0 10 (by norm_num),
   (claim_C6 10 0).2.2.1 60 2000 [] 0 0 (by norm_num) (by norm_num),
   (claim_C6 10 0).2.2.2 60 100 [] 0 0 (by norm_num) (by norm_num)⟩

/-- A busy system ignores the apply step entirely. -/
theorem accionar_busy (d : DictDecision) (s : SysState) (h : s.is_busy = true) :
    accionarActuadores d s = (s, []) := by
  simp [accionarActuadores, h]

/-- Normal form of the apply step on a non-busy system: pump, irrigation
valve and supply valve take the commanded (defaulted) values; the fertilizer
valve ends closed except when dosing is commanded with a zero opening time,
in which case it is untouched; everything else is unchanged. -/
theorem accionar_not_busy (d : DictDecision) (s : SysState)
    (h : s.is_busy = false) :
    (accionarActuadores d s).1 =
      ⟨s.control_mode, false, d.activar_bomba.getD false,
        d.abrir_valvula_riego.getD false, d.abrir_valvula_suministro.getD false,
        (if d.inyectar_fertilizante.getD false then
          (if 0 < d.porcentaje_fertilizante.getD 0 / 100 * 10 then false
           else s.valvula_fertilizante)
         else false),
        s.total_daily_water, s.remaining_daily_water,
        s.daily_fertilizer_percentage, s.num_events⟩ := by
  cases hb : d.activar_bomba.getD false <;>
    cases hr : d.abrir_valvula_riego.getD false <;>
    cases hi : d.inyectar_fertilizante.getD false <;>
    cases hsu : d.abrir_valvula_suministro.getD false <;>
    by_cases hp : 0 < d.porcentaje_fertilizante.getD 0 / 100 * 10 <;>
    simp [accionarActuadores, ajustarDosificacionFertilizante,
      ActuatorBase.activar, ActuatorBase.desactivar, h, hb, hr, hi, hsu, hp]

/-- When the system already sits in the commanded configuration and no
dosing is requested, the apply step issues no hardware call. -/
theorem accionar_calls_empty (d : DictDecision) (s : SysState)
    (h : s.is_busy = false)
    (hB : s.bomba = d.activar_bomba.getD false)
    (hR : s.valvula_riego = d.abrir_valvula_riego.getD false)
    (hS : s.valvula_suministro = d.abrir_valvula_suministro.getD false)
    (hF : s.valvula_fertilizante = false)
    (hI : d.inyectar_fertilizante.getD false = false) :
    (accionarActuadores d s).2 = [] := by
  cases hb : d.activar_bomba.getD false <;>
    cases hr : d.abrir_valvula_riego.getD false <;>
    cases hsu : d.abrir_valvula_suministro.getD false <;>
    simp [accionarActuadores, ajustarDosificacionFertilizante,
      ActuatorBase.activar, ActuatorBase.desactivar, h, hI, hb, hr, hsu,
      hB, hR, hS, hF]

/-- C10: On a non-busy system the apply step drives every actuator whose
command field is absent or falsy to off, regardless of its previous state,
so a partial or empty decision switches every unmentioned actuator off
rather than leaving it unchanged. -/
theorem claim_C10 (d : DictDecision) (s : SysState) (h : s.is_busy = false) :
    (d.activar_bomba.getD false = false →
      (accionarActuadores d s).1.bomba = false) ∧
    (d.abrir_valvula_riego.getD false = false →
      (accionarActuadores d s).1.valvula_riego = false) ∧
    (d.inyectar_fertilizante.getD false = false →
      (accionarActuadores d s).1.valvula_fertilizante = false) ∧
    (d.abrir_valvula_suministro.getD false = false →
      (accionarActuadores d s).1.valvula_suministro = false) := by
  rw [accionar_not_busy d s h]
  refine ⟨fun hb => by simp [hb], fun hr => by simp [hr],
    fun hi => by simp [hi], fun hs => by simp [hs]⟩

/-- Witness for C10: the partial humidity-low emergency decision, applied to
a non-busy state with supply and fertilizer valves on, switches both off. -/
theorem claim_C10_wit :
    ((accionarActuadores ⟨some true, some true, none, none, none, none⟩
        ⟨Mode.automatic, false, false, false, true, true, 30, 20, 0, 2⟩).1.valvula_fertilizante
      = false) ∧
    ((accionarActuadores ⟨some true, some true, none, none, none, none⟩
        ⟨Mode.automatic, false, false, false, true, true, 30, 20, 0, 2⟩).1.valvula_suministro
      = false) :=
  ⟨(claim_C10 ⟨some true, some true, none, none, none, none⟩
      ⟨Mode.automatic, false, false, false, true, true, 30, 20, 0, 2⟩ rfl).2.2.1 rfl,
   (claim_C10 ⟨some true, some true, none, none, none, none⟩
      ⟨Mode.automatic, false, false, false, true, true, 30, 20, 0, 2⟩ rfl).2.2.2 rfl⟩

/-- C7: ActuatorBase activation and deactivation set the state and issue the
underlying hardware call exactly when the state actually transitions (an
actuator already in the commanded state only logs and issues no call, so a
repeat issues none); consequently the apply step is idempotent on the system
state, and a repeated apply without a dosing command issues no hardware call
at all. -/
theorem claim_C7 (d : DictDecision) (s : SysState) :
    (∀ b : Bool, (ActuatorBase.activar b).1 = true ∧
      ((ActuatorBase.activar b).2 = true ↔ b = false) ∧
      ActuatorBase.activar (ActuatorBase.activar b).1 = (true, false)) ∧
    (∀ b : Bool, (ActuatorBase.desactivar b).1 = false ∧
      ((ActuatorBase.desactivar b).2 = true ↔ b = true) ∧
      ActuatorBase.desactivar (ActuatorBase.desactivar b).1 = (false, false)) ∧
    (accionarActuadores d (accionarActuadores d s).1).1 =
      (accionarActuadores d s).1 ∧
    (d.inyectar_fertilizante.getD false = false →
      (accionarActuadores d (accionarActuadores d s).1).2 = []) := by
  refine ⟨fun b => by cases b <;> simp [ActuatorBase.activar],
    fun b => by cases b <;> simp [ActuatorBase.desactivar], ?_, fun hI => ?_⟩
  · by_cases h : s.is_busy
    · rw [accionar_busy d s h, accionar_busy d s h]
    · rw [accionar_not_busy d s (by simpa using h), accionar_not_busy d _ rfl]
      split_ifs <;> rfl
  · by_cases h : s.is_busy
    · rw [accionar_busy d s h, accionar_busy d s h]
    · rw [accionar_not_busy d s (by simpa using h)]
      apply accionar_calls_empty <;> simp [hI]

/-- Witness for C7: a repeat apply of a pump-on command issues no call. -/
theorem claim_C7_wit :
    (accionarActuadores ⟨some true, none, none, none, none, none⟩
        (accionarActuadores ⟨some true, none, none, none, none, none⟩
          ⟨Mode.automatic, false, false, false, false, false, 30, 20, 0, 2⟩).1).2
      = [] ∧
    ActuatorBase.activar (ActuatorBase.activar false).1 = (true, false) :=
  ⟨(claim_C7 ⟨some true, none, none, none, none, none⟩
      ⟨Mode.automatic, false, false, false, false, false, 30, 20, 0, 2⟩).2.2.2 rfl,
   ((claim_C7 ⟨some true, none, none, none, none, none⟩
      ⟨Mode.automatic, false, false, false, false, false, 30, 20, 0, 2⟩).1 false).2.2⟩

/-- C1 amended: a control-mode switch, a manual-command fetch, an actuator
apply and a fertilizer dosing run arriving while the busy flag is true are
all rejected without changing the control mode, the actuator states or the
budget; but a scheduled irrigation event does NOT consult the busy flag, so
mutual exclusion does not extend to scheduled irrigation runs. -/
theorem claim_C1 (s : SysState) (h : s.is_busy = true) :
    (∀ nuevo, cambiarModoControl nuevo s = s) ∧
    (∀ cmds, comandosManuales cmds s = DictDecision.empty) ∧
    (∀ d, accionarActuadores d s = (s, [])) ∧
    (∀ p, ajustarDosificacionFertilizante p s = (s, [])) := by
  refine ⟨fun nuevo => ?_, fun cmds => ?_, fun d => accionar_busy d s h,
    fun p => ?_⟩
  · simp [cambiarModoControl, h]
  · simp [comandosManuales, h]
  · simp [ajustarDosificacionFertilizante, h]

/-- Witness for C1 on a busy state. -/
theorem claim_C1_wit :
    cambiarModoControl Mode.manual
      ⟨Mode.automatic, true, true, false, false, false, 30, 20, 0, 2⟩ =
      ⟨Mode.automatic, true, true, false, false, false, 30, 20, 0, 2⟩ ∧
    comandosManuales ⟨some true, none, none, none, none, none⟩
      ⟨Mode.automatic, true, true, false, false, false, 30, 20, 0, 2⟩ =
      DictDecision.empty ∧
    accionarActuadores DictDecision.empty
      ⟨Mode.automatic, true, true, false, false, false, 30, 20, 0, 2⟩ =
      (⟨Mode.automatic, true, true, false, false, false, 30, 20, 0, 2⟩, []) ∧
    ajustarDosificacionFertilizante 50
      ⟨Mode.automatic, true, true, false, false, false, 30, 20, 0, 2⟩ =
      (⟨Mode.automatic, true, true, false, false, false, 30, 20, 0, 2⟩, []) :=
  ⟨(claim_C1 ⟨Mode.automatic, true, true, false, false, false, 30, 20, 0, 2⟩
      rfl).1 Mode.manual,
   (claim_C1 ⟨Mode.automatic, true, true, false, false, false, 30, 20, 0, 2⟩
      rfl).2.1 ⟨some true, none, none, none, none, none⟩,
   (claim_C1 ⟨Mode.automatic, true, true, false, false, false, 30, 20, 0, 2⟩
      rfl).2.2.1 DictDecision.empty,
   (claim_C1 ⟨Mode.automatic, true, true, false, false, false, 30, 20, 0, 2⟩
      rfl).2.2.2 50⟩

/-- C1 counterexample: a scheduled irrigation event fired while the busy
flag is true (here during another critical action that holds the pump on)
is NOT deferred: it deducts 15 litres from the remaining budget, forces the
pump off at the end of its run, and clears the busy flag it did not own. -/
theorem claim_C1_cex :
    (⟨Mode.automatic, true, true, false, false, false, 30, 20, 0, 2⟩
        : SysState).is_busy = true ∧
    (eventoRiegoRun false
        ⟨Mode.automatic, true, true, false, false, false, 30, 20, 0, 2⟩) =
      ⟨Mode.automatic, false, false, false, false, false, 30, 5, 0, 2⟩ := by
  refine ⟨rfl, ?_⟩
  have h1 : iniciarEventoRiego
      ⟨Mode.automatic, true, true, false, false, false, 30, 20, 0, 2⟩ =
      (⟨Mode.automatic, true, true, false, false, false, 30, 5, 0, 2⟩,
        some ⟨some true, some true, some false, some false, some 0, some 15⟩) := by
    norm_num [iniciarEventoRiego]
  unfold eventoRiegoRun
  rw [h1]
  simp [controlarRiego, accionar_busy]

/-- Witness for C3 at the documented blockage case. -/
theorem claim_C3_wit :
    verificarAnomalias true true (some 5) = true :=
  claim_C3.2.2.2.2.1

/-- Witness for C9 at a summer in-band snapshot without a model. -/
theorem claim_C9_wit :
    GoodDecision (evaluar Season.summer ModelOutcome.noModel
      ⟨50, 25, 6.5, 1.5, 50, 30⟩) :=
  claim_C9 Season.summer ModelOutcome.noModel ⟨50, 25, 6.5, 1.5, 50, 30⟩
